import Mathlib

/-!
# Verification of the cotton_nest_backend payment-reconciliation core

A shallow embedding of the order / payment / webhook logic of the
repository (an Express + Mongoose e-commerce backend) together with
proofs and refutations of the specification's claims.

Conventions of the embedding:
* JavaScript numbers are modelled as rationals (`ℚ`); `Math.round` is
  Mathlib's `round` (both compute `⌊x + 1/2⌋` on the values that occur).
* Mongoose documents are Lean structures; a Mongo collection is a
  `List Order`; `Order.findOne` is `List.find?`; saving a found-and-mutated
  document is `updateFirst`.
* The `orderSchema.pre` save hook (src/unnamed/part_004, lines 213-226)
  is the function `preSave`, taking the `isModified` flags of the fields
  it inspects.
* HMAC-SHA256 is an abstract keyed function `hmac : String → String → String`
  carried in a `Config`; every theorem that needs it quantifies over it.
* Side effects (emails, gateway API calls, console logs) are recorded in
  the `World` state so that "at most one notification" style properties
  are statable.
-/

namespace CottonNest

/-- PAYMENT_STATUS from src/src/config/constants.js. -/
inductive PaymentStatus where
  | pending
  | success
  | failed
  | refunded
deriving DecidableEq, Repr

/-- ORDER_STATUS from src/src/config/constants.js. -/
inductive OrderStatus where
  | pending
  | processing
  | confirmed
  | shipped
  | delivered
  | cancelled
  | failed
deriving DecidableEq, Repr

/-- SHIPPING_CHARGES.FREE_THRESHOLD (constants.js line 27). -/
def FREE_THRESHOLD : ℚ := 999

/-- SHIPPING_CHARGES.STANDARD (constants.js line 28). -/
def STANDARD_SHIPPING : ℚ := 99

/-- TAX_RATE (constants.js line 31). -/
def TAX_RATE : ℚ := 18 / 100

/-- One line item of an order (items array of the order schema). -/
structure Item where
  price : ℚ
  quantity : ℚ
deriving DecidableEq, Repr

/-- The Order document (src/unnamed/part_004), restricted to the fields the
reconciliation logic reads or writes. -/
structure Order where
  internalId : String
  razorpayOrderId : String
  razorpayPaymentId : Option String := none
  customerEmail : String
  items : List Item
  subtotal : ℚ
  shippingCharges : ℚ
  taxAmount : ℚ
  discountAmount : ℚ := 0
  totalAmount : ℚ
  paymentStatus : PaymentStatus := .pending
  status : OrderStatus := .pending
  adminNotes : List String := []
  trackingNumber : Option String := none
  carrier : Option String := none
  estimatedDeliveryStamped : Bool := false
  deliveredAtStamped : Bool := false
deriving DecidableEq, Repr

/-- `this.items.reduce((sum, item) => sum + (item.price * item.quantity), 0)`
(part_004 line 218). -/
def itemsSum (items : List Item) : ℚ :=
  items.foldl (fun sum item => sum + item.price * item.quantity) 0

/-- The `orderSchema.pre` save middleware (part_004 lines 213-226).  The five
Boolean arguments are the values of `isModified` for `items`, `subtotal`,
`shippingCharges`, `taxAmount`, `discountAmount` at the time of the save.
Assigning `subtotal` in the first branch marks it modified for the second. -/
def preSave (mItems mSub mShip mTax mDisc : Bool) (o : Order) : Order :=
  let o1 := if mItems || mSub then { o with subtotal := itemsSum o.items } else o
  if mItems || mSub || mShip || mTax || mDisc then
    { o1 with totalAmount := o1.subtotal + o1.shippingCharges + o1.taxAmount - o1.discountAmount }
  else o1

/-- Saving a document obtained from `findOne`: replace the first matching
element of the collection. -/
def updateFirst (p : Order → Bool) (f : Order → Order) : List Order → List Order
  | [] => []
  | o :: rest => if p o then f o :: rest else o :: updateFirst p f rest

/-- One call recorded against the Razorpay remote API, with the amount
actually transmitted (in what the gateway interprets as paise). -/
inductive GatewayCall where
  | createOrder (amountSent : ℤ)
  | refund (paymentId : String) (amountSent : ℤ)
deriving DecidableEq, Repr

/-- Observable world: the Mongo orders collection plus the recorded side
effects (emails sent, remote gateway calls, console logs). -/
structure World where
  orders : List Order := []
  orderConfirmationEmails : List String := []
  paymentSuccessEmails : List String := []
  shippingEmails : List String := []
  gatewayCalls : List GatewayCall := []
  logs : List String := []
deriving DecidableEq, Repr

/-- Process configuration: the abstract HMAC-SHA256 function and the two
secrets (`RAZORPAY_KEY_SECRET`, `RAZORPAY_WEBHOOK_SECRET`). -/
structure Config where
  hmac : String → String → String
  keySecret : String
  webhookSecret : String

/-! ## Gateway Client (RazorpayService, src/src/utils/emailService.js 305-486) -/

/-- `RazorpayService.verifyPayment` (emailService.js lines 389-413):
HMAC over `orderId + "|" + paymentId`, compared with the given signature. -/
def razorpayVerifyPayment (cfg : Config) (orderId paymentId signature : String) : Bool :=
  cfg.hmac cfg.keySecret (orderId ++ "|" ++ paymentId) == signature

/-- `RazorpayService.verifyWebhookSignature` (emailService.js lines 421-443):
HMAC of the given body string under the webhook secret. -/
def verifyWebhookSignature (cfg : Config) (body signature : String) : Bool :=
  cfg.hmac cfg.webhookSecret body == signature

/-- The amount option built by `RazorpayService.createOrder`
(emailService.js line 324): `Math.round(orderData.amount * 100)`. -/
def razorpayCreateOrderAmount (amount : ℚ) : ℤ :=
  round (amount * 100)

/-- The amount option built by `RazorpayService.createRefund`
(emailService.js line 455): `Math.round(amount * 100)`. -/
def razorpayCreateRefundAmount (amount : ℚ) : ℤ :=
  round (amount * 100)

/-! ## Order creation (src/src/controllers/paymentController.js 12-67) -/

/-- Shipping charge computation (paymentController.js lines 17-20). -/
def shippingChargesOf (amount : ℚ) : ℚ :=
  if amount ≥ FREE_THRESHOLD then 0 else STANDARD_SHIPPING

/-- Tax computation (paymentController.js line 23): `Math.round(amount * TAX_RATE)`. -/
def taxAmountOf (amount : ℚ) : ℚ :=
  (round (amount * TAX_RATE) : ℤ)

/-- Total computation (paymentController.js line 25). -/
def totalAmountOf (amount : ℚ) : ℚ :=
  amount + shippingChargesOf amount + taxAmountOf amount

/-- Result of an HTTP handler: the status code and the new world. -/
structure HandlerResult where
  world : World
  status : Nat
deriving Repr

/-- `createOrder` (paymentController.js lines 12-67).  `newInternalId` is the
Mongo `_id` the store assigns and `newRemoteOrderId` the id the gateway
returns; `responseTotal` reports the `totalAmount` field of the 201 JSON
response.  The amount transmitted to the gateway is the controller's
`Math.round(totalAmount * 100)` (line 29) passed through
`RazorpayService.createOrder`'s own `Math.round(amount * 100)` (line 324). -/
def createOrder (newInternalId newRemoteOrderId : String) (amount : ℚ)
    (items : List Item) (email : String) (w : World) : HandlerResult × ℚ :=
  let shippingCharges := shippingChargesOf amount
  let taxAmount := taxAmountOf amount
  let totalAmount := amount + shippingCharges + taxAmount
  let sentToGateway := razorpayCreateOrderAmount ((round (totalAmount * 100) : ℤ) : ℚ)
  let order : Order :=
    { internalId := newInternalId
      razorpayOrderId := newRemoteOrderId
      customerEmail := email
      items := items
      subtotal := amount
      shippingCharges := shippingCharges
      taxAmount := taxAmount
      totalAmount := totalAmount
      paymentStatus := .pending
      status := .pending }
  let saved := preSave true true true true true order
  ({ world :=
      { w with
        orders := w.orders ++ [saved]
        gatewayCalls := w.gatewayCalls ++ [.createOrder sentToGateway]
        orderConfirmationEmails := w.orderConfirmationEmails ++ [email] }
     status := 201 }, totalAmount)

/-! ## Payment verification (paymentController.js 72-107) -/

/-- `verifyPayment` (paymentController.js lines 72-107).  Invalid signature
→ 400 without touching the store; unknown razorpay order id → 404; otherwise
the payment id is set and the order moved to (success, confirmed), and a
payment-success email is sent. -/
def verifyPayment (cfg : Config) (orderId paymentId signature : String)
    (w : World) : HandlerResult :=
  if ¬ razorpayVerifyPayment cfg orderId paymentId signature then
    { world := w, status := 400 }
  else
    match w.orders.find? (fun o => o.razorpayOrderId == orderId) with
    | none => { world := w, status := 404 }
    | some o =>
      let o' := preSave false false false false false
        { o with
          razorpayPaymentId := some paymentId
          paymentStatus := .success
          status := .confirmed }
      { world :=
          { w with
            orders := updateFirst (fun x => x.razorpayOrderId == orderId) (fun _ => o') w.orders
            paymentSuccessEmails := w.paymentSuccessEmails ++ [o.customerEmail] }
        status := 200 }

/-! ## Webhook handlers (src/src/controllers/webhookController.js) -/

/-- `payload.payment.entity` of a webhook. -/
structure PaymentEntity where
  id : String
  amount : ℚ := 0
  error_description : String := ""
deriving DecidableEq, Repr

/-- `payload.order.entity` of a webhook. -/
structure OrderEntity where
  id : String
deriving DecidableEq, Repr

/-- `payload.refund.entity` of a webhook. -/
structure RefundEntity where
  id : String
  payment_id : String
  amount : ℚ := 0
deriving DecidableEq, Repr

/-- The `payload` object of a webhook body; each handler reads only its own
entity. -/
structure WebhookPayload where
  payment : PaymentEntity := { id := "" }
  order : OrderEntity := { id := "" }
  refund : RefundEntity := { id := "", payment_id := "" }
deriving DecidableEq, Repr

/-- `handlePaymentCaptured` (webhookController.js lines 66-98): look the
order up by `razorpayPaymentId`; on a miss only log; on a hit move to
(success, confirmed), push an admin note, and send a payment-success email.
There is no already-applied check before mutating or emailing. -/
def handlePaymentCaptured (p : PaymentEntity) (w : World) : World :=
  match w.orders.find? (fun o => o.razorpayPaymentId == some p.id) with
  | none => { w with logs := w.logs ++ ["Order not found for payment ID: " ++ p.id] }
  | some o =>
    let o' := preSave false false false false false
      { o with
        paymentStatus := .success
        status := .confirmed
        adminNotes := o.adminNotes ++ ["Payment captured via webhook"] }
    { w with
      orders := updateFirst (fun x => x.razorpayPaymentId == some p.id) (fun _ => o') w.orders
      paymentSuccessEmails := w.paymentSuccessEmails ++ [o.customerEmail] }

/-- `handlePaymentFailed` (webhookController.js lines 103-132). -/
def handlePaymentFailed (p : PaymentEntity) (w : World) : World :=
  match w.orders.find? (fun o => o.razorpayPaymentId == some p.id) with
  | none => { w with logs := w.logs ++ ["Order not found for payment ID: " ++ p.id] }
  | some o =>
    let o' := preSave false false false false false
      { o with
        paymentStatus := .failed
        status := .failed
        adminNotes := o.adminNotes ++ ["Payment failed via webhook. Error: " ++ p.error_description] }
    { w with
      orders := updateFirst (fun x => x.razorpayPaymentId == some p.id) (fun _ => o') w.orders }

/-- `handleOrderPaid` (webhookController.js lines 137-160): lookup by
`razorpayOrderId`, set (success, confirmed), no note, no email. -/
def handleOrderPaid (oe : OrderEntity) (w : World) : World :=
  match w.orders.find? (fun o => o.razorpayOrderId == oe.id) with
  | none => { w with logs := w.logs ++ ["Order not found in database: " ++ oe.id] }
  | some o =>
    let o' := preSave false false false false false
      { o with paymentStatus := .success, status := .confirmed }
    { w with
      orders := updateFirst (fun x => x.razorpayOrderId == oe.id) (fun _ => o') w.orders }

/-- `handleRefundCreated` (webhookController.js lines 165-194): lookup by
`razorpayPaymentId = refund.entity.payment_id`; on a hit move to
(refunded, cancelled) and push a note. -/
def handleRefundCreated (re : RefundEntity) (w : World) : World :=
  match w.orders.find? (fun o => o.razorpayPaymentId == some re.payment_id) with
  | none => { w with logs := w.logs ++ ["Order not found for payment ID: " ++ re.payment_id] }
  | some o =>
    let o' := preSave false false false false false
      { o with
        paymentStatus := .refunded
        status := .cancelled
        adminNotes := o.adminNotes ++ ["Refund initiated via webhook. Refund ID: " ++ re.id] }
    { w with
      orders := updateFirst (fun x => x.razorpayPaymentId == some re.payment_id) (fun _ => o') w.orders }

/-- `handleRefundProcessed` (webhookController.js lines 199-223): note only,
no status change. -/
def handleRefundProcessed (re : RefundEntity) (w : World) : World :=
  match w.orders.find? (fun o => o.razorpayPaymentId == some re.payment_id) with
  | none => { w with logs := w.logs ++ ["Order not found for payment ID: " ++ re.payment_id] }
  | some o =>
    let o' := preSave false false false false false
      { o with adminNotes := o.adminNotes ++ ["Refund processed via webhook. Refund ID: " ++ re.id] }
    { w with
      orders := updateFirst (fun x => x.razorpayPaymentId == some re.payment_id) (fun _ => o') w.orders }

/-- `handleRazorpayWebhook` (webhookController.js lines 11-61) after the
signature check: `isAuthentic` is the result of
`verifyWebhookSignature(JSON.stringify(req.body), signature)` (the HMAC input
itself is modelled separately by `webhookHmacInput`).  A failed check → 400
with no dispatch; otherwise the event is dispatched and the response is 200,
with unrecognized events only logged. -/
def handleRazorpayWebhook (isAuthentic : Bool) (event : String)
    (payload : WebhookPayload) (w : World) : HandlerResult :=
  if ¬ isAuthentic then { world := w, status := 400 }
  else
    let w' :=
      if event == "payment.captured" then handlePaymentCaptured payload.payment w
      else if event == "payment.failed" then handlePaymentFailed payload.payment w
      else if event == "order.paid" then handleOrderPaid payload.order w
      else if event == "refund.created" then handleRefundCreated payload.refund w
      else if event == "refund.processed" then handleRefundProcessed payload.refund w
      else { w with logs := w.logs ++ ["Unhandled webhook event: " ++ event] }
    { world := w', status := 200 }

/-! ## Admin order-status update (src/unnamed/part_000, lines 179-247) -/

/-- `validateOrderStatusUpdate` (src/src/middleware/validation.js 232-270):
the status must be one of the `ORDER_STATUS` values (guaranteed here by the
`OrderStatus` type) and a tracking number is required when it is `shipped`. -/
def validateOrderStatusUpdate (status : OrderStatus)
    (trackingNumber : Option String) : Bool :=
  !(status == .shipped && trackingNumber == none)

/-- `updateOrderStatus` (part_000 lines 179-247), reached through
`validateOrderStatusUpdate` on its route: sets `status` (leaving
`paymentStatus` untouched), merges shipping fields, stamps delivery dates,
optionally appends a note, and emails on shipped/delivered. -/
def updateOrderStatus (orderId : String) (status : OrderStatus)
    (notes trackingNumber carrier : Option String) (w : World) : HandlerResult :=
  if ¬ validateOrderStatusUpdate status trackingNumber then
    { world := w, status := 400 }
  else
    match w.orders.find? (fun o => o.internalId == orderId) with
    | none => { world := w, status := 404 }
    | some o =>
      let withStatus :=
        { o with
          status := status
          trackingNumber := match trackingNumber with
            | some t => some t
            | none => o.trackingNumber
          carrier := match carrier with
            | some c => some c
            | none => o.carrier
          estimatedDeliveryStamped :=
            if status == OrderStatus.shipped then true else o.estimatedDeliveryStamped
          deliveredAtStamped :=
            if status == OrderStatus.delivered then true else o.deliveredAtStamped }
      let o' := preSave false false false false false
        { withStatus with
          adminNotes := match notes with
            | some n => withStatus.adminNotes ++ ["Status updated. " ++ n]
            | none => withStatus.adminNotes }
      let w' :=
        { w with orders := updateFirst (fun x => x.internalId == orderId) (fun _ => o') w.orders }
      let w'' :=
        if status == .shipped || status == .delivered then
          { w' with shippingEmails := w'.shippingEmails ++ [o.customerEmail] }
        else w'
      { world := w'', status := 200 }

/-! ## Admin refund (paymentController.js 187-251) -/

/-- `refundPayment` (paymentController.js lines 187-251).  Lookup by
`razorpayPaymentId`; 404 on a miss; 400 if the payment is not in
`success`; otherwise `refundAmount = amount || order.totalAmount` (so a
missing — or zero — amount defaults to the full total), the gateway refund
call is made through `RazorpayService.createRefund` with no local bound
check against `totalAmount`, and the order moves to (refunded, cancelled)
with an admin note. -/
def refundPayment (paymentId : String) (amount : Option ℚ) (reason : Option String)
    (w : World) : HandlerResult :=
  match w.orders.find? (fun o => o.razorpayPaymentId == some paymentId) with
  | none => { world := w, status := 404 }
  | some o =>
    if o.paymentStatus ≠ .success then { world := w, status := 400 }
    else
      let refundAmount := match amount with
        | some a => if a = 0 then o.totalAmount else a
        | none => o.totalAmount
      let sentToGateway := razorpayCreateRefundAmount refundAmount
      let o' := preSave false false false false false
        { o with
          paymentStatus := .refunded
          status := .cancelled
          adminNotes := o.adminNotes ++ ["Refund initiated. Reason: " ++ reason.getD "Not specified"] }
      { world :=
          { w with
            orders := updateFirst (fun x => x.razorpayPaymentId == some paymentId) (fun _ => o') w.orders
            gatewayCalls := w.gatewayCalls ++ [.refund paymentId sentToGateway] }
        status := 200 }

/-! ## The webhook HMAC input (webhookController.js lines 13-17)

`index.js` installs `express.json()` before the webhook router, so when
`handleRazorpayWebhook` runs, `req.body` is the *parsed* JSON value and
line 14 recovers a body string with `JSON.stringify(req.body)` — a
re-serialization, not the raw bytes the gateway signed.  We model parsing
and Node's `JSON.stringify` on the JSON fragment needed to exercise this
path: strings, integers, and one-level objects of such atoms. -/

/-- An atomic JSON value of the modelled fragment. -/
inductive JAtom where
  | str (s : String)
  | num (n : Int)
deriving DecidableEq, Repr

/-- A JSON value of the modelled fragment. -/
inductive Json where
  | atom (a : JAtom)
  | obj (fields : List (String × JAtom))
deriving DecidableEq, Repr

/-- `JSON.stringify` of an atom. -/
def stringifyAtom : JAtom → String
  | .str s => "\"" ++ s ++ "\""
  | .num n => toString n

/-- `JSON.stringify` of an object body (no whitespace, fields in order —
Node's output format). -/
def stringifyFields : List (String × JAtom) → String
  | [] => ""
  | [(k, v)] => "\"" ++ k ++ "\":" ++ stringifyAtom v
  | (k, v) :: rest => "\"" ++ k ++ "\":" ++ stringifyAtom v ++ "," ++ stringifyFields rest

/-- `JSON.stringify` on the modelled fragment. -/
def jsonStringify : Json → String
  | .atom a => stringifyAtom a
  | .obj fs => "\x7b" ++ stringifyFields fs ++ "\x7d"

/-- Skip JSON whitespace. -/
def skipWs : List Char → List Char
  | c :: rest => if c = ' ' || c = '\t' || c = '\n' || c = '\r' then skipWs rest else c :: rest
  | [] => []

/-- Read a (escape-free) string literal body up to the closing quote. -/
def takeStr : List Char → Option (String × List Char)
  | [] => none
  | c :: rest =>
    if c = '"' then some ("", rest)
    else match takeStr rest with
      | some (s, r) => some (String.mk (c :: s.data), r)
      | none => none

/-- Read a decimal integer (optionally negative). -/
def takeNum (cs : List Char) : Option (Int × List Char) :=
  let (neg, cs) := match cs with
    | '-' :: rest => (true, rest)
    | _ => (false, cs)
  let digits := cs.takeWhile (fun c => c.isDigit)
  let rest := cs.dropWhile (fun c => c.isDigit)
  if digits.isEmpty then none
  else
    let n : Int := digits.foldl (fun acc c => acc * 10 + (c.toNat - 48)) (0 : Int)
    some (if neg then -n else n, rest)

/-- Parse one atom of the fragment. -/
def parseAtom (cs : List Char) : Option (JAtom × List Char) :=
  match skipWs cs with
  | '"' :: rest => (takeStr rest).map (fun (s, r) => (.str s, r))
  | cs' => (takeNum cs').map (fun (n, r) => (.num n, r))

/-- Parse the fields of an object after its opening brace; the fuel bounds
the number of fields. -/
def parseFields : Nat → List Char → Option (List (String × JAtom) × List Char)
  | 0, _ => none
  | fuel + 1, cs =>
    match skipWs cs with
    | '"' :: rest =>
      match takeStr rest with
      | none => none
      | some (k, r1) =>
        match skipWs r1 with
        | ':' :: r2 =>
          match parseAtom r2 with
          | none => none
          | some (v, r3) =>
            match skipWs r3 with
            | '\x7d' :: r4 => some ([(k, v)], r4)
            | ',' :: r4 =>
              match parseFields fuel r4 with
              | some (fs, r5) => some ((k, v) :: fs, r5)
              | none => none
            | _ => none
        | _ => none
    | _ => none

/-- Parse a JSON document of the modelled fragment (what `express.json`
leaves in `req.body`). -/
def jsonParse (s : String) : Option Json :=
  match skipWs s.data with
  | '\x7b' :: rest =>
    match skipWs rest with
    | '\x7d' :: r =>
      if (skipWs r).isEmpty then some (.obj []) else none
    | _ =>
      match parseFields (s.length + 1) rest with
      | some (fs, r) => if (skipWs r).isEmpty then some (.obj fs) else none
      | none => none
  | cs =>
    match parseAtom cs with
    | some (a, r) => if (skipWs r).isEmpty then some (.atom a) else none
    | none => none

/-- The string actually fed to the webhook HMAC for a delivered raw body
(webhookController.js line 14 composed with the `express.json` body parser
installed in index.js): `JSON.stringify` of the parsed body.  `none` means
the body parser rejects the request before the controller runs. -/
def webhookHmacInput (rawBody : String) : Option String :=
  (jsonParse rawBody).map jsonStringify

/-- The complete webhook signature check on a delivered raw body
(webhookController.js lines 13-22 with emailService.js lines 421-443). -/
def webhookSignatureCheck (cfg : Config) (rawBody signature : String) : Option Bool :=
  (webhookHmacInput rawBody).map (fun b => verifyWebhookSignature cfg b signature)

/-! ## The reconciliation transition system -/

/-- One inbound event of the reconciliation core.  For webhooks,
`isAuthentic` is the outcome of the signature check (modelled separately by
`webhookSignatureCheck`). -/
inductive Event where
  | orderPlaced (newInternalId newRemoteOrderId : String) (amount : ℚ)
      (items : List Item) (email : String)
  | clientVerified (orderId paymentId signature : String)
  | webhook (isAuthentic : Bool) (event : String) (payload : WebhookPayload)
  | adminStatusUpdate (orderId : String) (status : OrderStatus)
      (notes trackingNumber carrier : Option String)
  | adminRefund (paymentId : String) (amount : Option ℚ) (reason : Option String)

/-- Whether an event is the admin fulfillment-status update. -/
def Event.isAdminStatusUpdate : Event → Bool
  | .adminStatusUpdate _ _ _ _ _ => true
  | _ => false

/-- The state reached after one event is fully handled. -/
def step (cfg : Config) (ev : Event) (w : World) : World :=
  match ev with
  | .orderPlaced i r a it e => ((createOrder i r a it e w).1).world
  | .clientVerified o p s => (verifyPayment cfg o p s w).world
  | .webhook auth e p => (handleRazorpayWebhook auth e p w).world
  | .adminStatusUpdate o s n t c => (updateOrderStatus o s n t c w).world
  | .adminRefund p a r => (refundPayment p a r w).world

/-- The six (paymentStatus, status) pairs the specification allows at rest. -/
def validPair (o : Order) : Bool :=
  match o.paymentStatus, o.status with
  | .pending, .pending => true
  | .success, .confirmed => true
  | .success, .shipped => true
  | .success, .delivered => true
  | .failed, .failed => true
  | .refunded, .cancelled => true
  | _, _ => false

/-- The monetary invariant of §8 of the specification. -/
def MonetaryInv (o : Order) : Prop :=
  o.totalAmount = o.subtotal + o.shippingCharges + o.taxAmount - o.discountAmount

/-! ## Concrete fixtures used by counterexamples and witnesses -/

/-- A concrete stand-in for HMAC-SHA256 used to instantiate closed
counterexamples (every general theorem quantifies over the HMAC function). -/
def toyCfg : Config :=
  { hmac := fun secret body => secret ++ "#" ++ body
    keySecret := "ks"
    webhookSecret := "ws" }

/-- An order as placed by `createOrder` for scenario A (request amount 900,
one line item 450 × 2): state (pending, pending), no payment id yet. -/
def orderA : Order :=
  { internalId := "id1"
    razorpayOrderId := "order_1"
    customerEmail := "c@example.in"
    items := [{ price := 450, quantity := 2 }]
    subtotal := 900
    shippingCharges := 99
    taxAmount := 162
    totalAmount := 1161 }

/-- A store holding just `orderA`. -/
def worldA : World := { orders := [orderA] }

/-- `orderA` after a successful `verifyPayment` for payment `pay_1`. -/
def orderB : Order :=
  { orderA with
    razorpayPaymentId := some "pay_1"
    paymentStatus := .success
    status := .confirmed }

/-- `orderB` after `n` further applications of `handlePaymentCaptured`:
the statuses are unchanged but the webhook note is appended `n` times. -/
def orderBn (n : Nat) : Order :=
  { orderB with adminNotes := List.replicate n "Payment captured via webhook" }

/-- `orderA` already refunded (paid with `pay_0`, then refunded/cancelled). -/
def orderR : Order :=
  { orderA with
    razorpayPaymentId := some "pay_0"
    paymentStatus := .refunded
    status := .cancelled }

/-- A store holding just `orderR`. -/
def worldR : World := { orders := [orderR] }

/-- `orderA` successfully paid with `pay_1` (refund fixture). -/
def orderS : Order :=
  { orderA with
    razorpayPaymentId := some "pay_1"
    paymentStatus := .success
    status := .confirmed }

/-- A store holding just `orderS`. -/
def worldS : World := { orders := [orderS] }

/-- The webhook payload of a `payment.captured` event for payment `pid`. -/
def capturedPayloadFor (pid : String) : WebhookPayload :=
  { payment := { id := pid } }

/-- Apply the (signature-valid) `payment.captured` webhook once. -/
def applyCaptured (pid : String) (w : World) : World :=
  (handleRazorpayWebhook true "payment.captured" (capturedPayloadFor pid) w).world

/-- Apply the `payment.captured` webhook `n` times. -/
def iterCaptured (pid : String) : Nat → World → World
  | 0, w => w
  | n + 1, w => iterCaptured pid n (applyCaptured pid w)

/-- A raw webhook body, with one space between colon and value. -/
def rawSpace : String := "\x7b\"event\": \"payment.captured\"\x7d"

/-- `rawSpace` with the single space replaced by a tab: a one-byte
tampering of the delivered body that leaves the parsed JSON value intact. -/
def rawTab : String := "\x7b\"event\":\t\"payment.captured\"\x7d"

/-- The five webhook event types the controller dispatches on. -/
def handledEvents : List String :=
  ["payment.captured", "payment.failed", "order.paid", "refund.created", "refund.processed"]

/-! ## Helper lemmas -/

theorem preSave_id (o : Order) : preSave false false false false false o = o := rfl

theorem round_ratCast (q : ℚ) (n : ℤ) (h : q = (n : ℚ)) : round q = n := by
  rw [h, round_intCast]

theorem updateFirst_forall {P : Order → Prop} (p : Order → Bool) (o' : Order)
    (l : List Order) (h : ∀ x ∈ l, P x) (h' : P o') :
    ∀ o ∈ updateFirst p (fun _ => o') l, P o := by
  induction l with
  | nil => intro o ho; simp [updateFirst] at ho
  | cons a t ih =>
    intro o ho
    by_cases hp : p a
    · simp only [updateFirst, hp, if_pos] at ho
      rcases List.mem_cons.mp ho with rfl | hmem
      · exact h'
      · exact h o (List.mem_cons_of_mem _ hmem)
    · simp only [updateFirst, hp] at ho
      rcases List.mem_cons.mp ho with rfl | hmem
      · exact h o (List.mem_cons_self o t)
      · exact ih (fun x hx => h x (List.mem_cons_of_mem _ hx)) o hmem

theorem find?_updateFirst_self (p : Order → Bool) (o' : Order) (l : List Order)
    (hl : ∃ x ∈ l, p x = true) (h' : p o' = true) :
    List.find? p (updateFirst p (fun _ => o') l) = some o' := by
  induction l with
  | nil => simp at hl
  | cons a t ih =>
    by_cases hp : p a
    · simp [updateFirst, hp, List.find?, h']
    · obtain ⟨x, hx, hpx⟩ := hl
      rcases List.mem_cons.mp hx with rfl | hmem
      · exact absurd hpx (by simp [hp])
      · simp only [updateFirst, hp, if_neg, Bool.false_eq_true, not_false_iff]
        rw [List.find?_cons_of_neg _ (by simp [hp])]
        exact ih ⟨x, hmem, hpx⟩

/-! ## Claims -/

theorem tax900 : taxAmountOf 900 = 162 := by
  unfold taxAmountOf TAX_RATE
  rw [round_ratCast ((900 : ℚ) * (18 / 100)) 162 (by norm_num)]
  norm_num

theorem ship900 : shippingChargesOf 900 = 99 := by
  unfold shippingChargesOf FREE_THRESHOLD STANDARD_SHIPPING
  norm_num

theorem total900 : (900 : ℚ) + shippingChargesOf 900 + taxAmountOf 900 = 1161 := by
  rw [ship900, tax900]; norm_num

/-- C9: creating an order with request amount 900 yields shipping 99
(below the 999 free-shipping threshold), tax `round(900 × 0.18) = 162`
and response total 1161; in general the shipping charge is 0 iff the
amount reaches 999 and the tax is `round(amount × 0.18)`, computed from
the pre-shipping amount only (shipping is added after the tax). -/
theorem createOrder_scenarioA :
    ((createOrder "id1" "order_1" 900 [{ price := 450, quantity := 2 }] "c@example.in" {}).2 = 1161) ∧
    shippingChargesOf 900 = 99 ∧ taxAmountOf 900 = 162 ∧
    (∀ a : ℚ, shippingChargesOf a = if a ≥ 999 then 0 else 99) ∧
    (∀ a : ℚ, taxAmountOf a = ((round (a * (18 / 100)) : ℤ) : ℚ)) ∧
    (∀ i r e (a : ℚ) (it : List Item) w,
      (createOrder i r a it e w).2 = a + shippingChargesOf a + taxAmountOf a) := by
  have htax : taxAmountOf 900 = 162 := by
    unfold taxAmountOf TAX_RATE
    rw [round_ratCast ((900 : ℚ) * (18 / 100)) 162 (by norm_num)]
    norm_num
  have hship : shippingChargesOf 900 = 99 := by
    unfold shippingChargesOf FREE_THRESHOLD STANDARD_SHIPPING
    norm_num
  refine ⟨?_, hship, htax, ?_, ?_, ?_⟩
  · show (900 : ℚ) + shippingChargesOf 900 + taxAmountOf 900 = 1161
    rw [hship, htax]; norm_num
  · intro a; unfold shippingChargesOf FREE_THRESHOLD STANDARD_SHIPPING; rfl
  · intro a; unfold taxAmountOf TAX_RATE; rfl
  · intro i r e a it w; rfl

/-- C10: on any order save in which the items were modified — which in this
code base is exactly order creation — the pre-save hook overrides the
caller-supplied subtotal with `Σ price × quantity` and re-derives
`totalAmount` from it, so the persisted total differs from the amount the
201 response reports whenever the request's `amount` differs from the item
sum. -/
theorem createOrder_recomputes_subtotal (i r e : String) (a : ℚ) (it : List Item) (w : World) :
    (((createOrder i r a it e w).1).world.orders.getLast?).map Order.subtotal
      = some (itemsSum it) ∧
    (((createOrder i r a it e w).1).world.orders.getLast?).map Order.totalAmount
      = some (itemsSum it + shippingChargesOf a + taxAmountOf a) ∧
    (createOrder i r a it e w).2 = a + shippingChargesOf a + taxAmountOf a ∧
    (itemsSum it ≠ a →
      (((createOrder i r a it e w).1).world.orders.getLast?).map Order.totalAmount
        ≠ some ((createOrder i r a it e w).2)) := by
  have hlast : ((createOrder i r a it e w).1).world.orders.getLast?
      = some (preSave true true true true true
        { internalId := i
          razorpayOrderId := r
          customerEmail := e
          items := it
          subtotal := a
          shippingCharges := shippingChargesOf a
          taxAmount := taxAmountOf a
          totalAmount := a + shippingChargesOf a + taxAmountOf a
          paymentStatus := .pending
          status := .pending }) := by
    simp [createOrder, List.getLast?_concat]
  have hresp : (createOrder i r a it e w).2 = a + shippingChargesOf a + taxAmountOf a := rfl
  refine ⟨?_, ?_, rfl, ?_⟩
  · rw [hlast]; simp [preSave]
  · rw [hlast]; simp [preSave]
  · intro hne
    rw [hlast]
    simp only [preSave, Bool.or_self, if_pos, Option.map_some]
    intro hcontra
    apply hne
    have hinj := Option.some_injective _ hcontra
    simp only [hresp] at hinj
    simp at hinj
    linarith [hinj]

/-- C4 (code bug): the controller converts the rupee total to paise with
`Math.round(totalAmount * 100)` under a comment claiming the conversion
happens only there, but `RazorpayService.createOrder` multiplies by 100
again, so the amount transmitted for a scenario-A order (total ₹1161) is
11,610,000 — not the 116,100 paise the single conversion the spec (and the
controller's own comment) requires.  The refund path converts once, as
specified. -/
theorem createOrder_gateway_amount_double_scaled :
    ((((createOrder "id1" "order_1" 900 [{ price := 450, quantity := 2 }]
        "c@example.in" {}).1).world.gatewayCalls)
      = [.createOrder 11610000]) ∧
    round ((1161 : ℚ) * 100) = 116100 ∧ ((11610000 : ℤ) ≠ 116100) ∧
    (∀ a : ℚ, razorpayCreateRefundAmount a = round (a * 100)) := by
  have h2 : round ((1161 : ℚ) * 100) = (116100 : ℤ) :=
    round_ratCast _ _ (by norm_num)
  have h1 : round (((900 : ℚ) + shippingChargesOf 900 + taxAmountOf 900) * 100) = (116100 : ℤ) := by
    rw [total900]; exact h2
  have h3 : razorpayCreateOrderAmount (((116100 : ℤ) : ℚ)) = 11610000 := by
    unfold razorpayCreateOrderAmount
    exact round_ratCast _ _ (by norm_num)
  refine ⟨?_, h2, by decide, fun a => rfl⟩
  simp only [createOrder, h1, h3]
  simp

theorem createOrder_recomputes_subtotal_witness :
    itemsSum [{ price := 100, quantity := 1 }] ≠ 900 ∧
    ((((createOrder "id2" "order_2" 900 [{ price := 100, quantity := 1 }]
        "d@example.in" {}).1).world.orders.getLast?).map Order.totalAmount
      ≠ some ((createOrder "id2" "order_2" 900 [{ price := 100, quantity := 1 }]
        "d@example.in" {}).2)) := by
  have hne : itemsSum [{ price := 100, quantity := 1 }] ≠ (900 : ℚ) := by
    simp [itemsSum]
  exact ⟨hne,
    (createOrder_recomputes_subtotal "id2" "order_2" "d@example.in" 900
      [{ price := 100, quantity := 1 }] {}).2.2.2 hne⟩

/-! ### C1: webhook/verify idempotency -/

theorem applyCaptured_miss (pid : String) (w : World)
    (h : w.orders.find? (fun o => o.razorpayPaymentId == some pid) = none) :
    (applyCaptured pid w).orders = w.orders ∧
    (applyCaptured pid w).paymentSuccessEmails = w.paymentSuccessEmails := by
  unfold applyCaptured handleRazorpayWebhook handlePaymentCaptured
  simp [capturedPayloadFor, h]

theorem iterCaptured_miss (k : Nat) : ∀ w : World,
    w.orders = [orderA] → w.paymentSuccessEmails = [] →
    (iterCaptured "pay_1" k w).orders = [orderA] ∧
    (iterCaptured "pay_1" k w).paymentSuccessEmails = [] := by
  induction k with
  | zero => intro w ho he; exact ⟨ho, he⟩
  | succ n ih =>
    intro w ho he
    have hfind : w.orders.find? (fun o => o.razorpayPaymentId == some "pay_1") = none := by
      rw [ho]; simp [orderA]
    have hmiss := applyCaptured_miss "pay_1" w hfind
    rw [iterCaptured]
    exact ih _ (hmiss.1.trans ho) (hmiss.2.trans he)

theorem verify_on_orderA (cfg : Config) (sig : String) (w : World)
    (hsig : razorpayVerifyPayment cfg "order_1" "pay_1" sig = true)
    (ho : w.orders = [orderA]) :
    (verifyPayment cfg "order_1" "pay_1" sig w).world.orders = [orderBn 0] ∧
    (verifyPayment cfg "order_1" "pay_1" sig w).world.paymentSuccessEmails
      = w.paymentSuccessEmails ++ ["c@example.in"] := by
  unfold verifyPayment
  rw [hsig, ho]
  simp [orderA, orderB, orderBn, updateFirst, preSave]

theorem applyCaptured_hit_orderBn (j : Nat) (w : World)
    (ho : w.orders = [orderBn j]) :
    (applyCaptured "pay_1" w).orders = [orderBn (j + 1)] ∧
    (applyCaptured "pay_1" w).paymentSuccessEmails
      = w.paymentSuccessEmails ++ ["c@example.in"] := by
  unfold applyCaptured handleRazorpayWebhook handlePaymentCaptured
  rw [ho]
  simp [capturedPayloadFor, orderBn, orderB, orderA, updateFirst, preSave]
  rw [← List.replicate_succ', List.replicate_succ]

theorem iterCaptured_hit (m : Nat) : ∀ (w : World) (j : Nat),
    w.orders = [orderBn j] →
    (iterCaptured "pay_1" m w).orders = [orderBn (j + m)] ∧
    (iterCaptured "pay_1" m w).paymentSuccessEmails.length
      = w.paymentSuccessEmails.length + m := by
  induction m with
  | zero => intro w j ho; exact ⟨ho, rfl⟩
  | succ n ih =>
    intro w j ho
    have hhit := applyCaptured_hit_orderBn j w ho
    rw [iterCaptured]
    have := ih (applyCaptured "pay_1" w) (j + 1) hhit.1
    refine ⟨by rw [this.1]; ring_nf, ?_⟩
    rw [this.2, hhit.2]
    simp
    omega

/-- C1 (amended): a `payment.captured` webhook finds the order by
`razorpayPaymentId`, which only `verifyPayment` ever sets.  Webhooks
arriving before `ClientVerified` are therefore lookup-miss no-ops, and the
final state after one valid `ClientVerified` and any number of webhooks in
any interleaving is (success, confirmed) — but the webhook handler has no
already-applied check, so every webhook arriving after `ClientVerified`
re-sends the payment-success notification: the notification count is
`1 + m` where `m` is the number of webhooks after `ClientVerified`, not 1. -/
theorem captured_webhook_not_idempotent (cfg : Config) (sig : String) (k m : Nat)
    (hsig : razorpayVerifyPayment cfg "order_1" "pay_1" sig = true) :
    ((iterCaptured "pay_1" m
        ((verifyPayment cfg "order_1" "pay_1" sig (iterCaptured "pay_1" k worldA)).world)).orders
      = [orderBn m]) ∧
    ((iterCaptured "pay_1" m
        ((verifyPayment cfg "order_1" "pay_1" sig (iterCaptured "pay_1" k worldA)).world)).paymentSuccessEmails.length
      = 1 + m) ∧
    (orderBn m).paymentStatus = .success ∧ (orderBn m).status = .confirmed := by
  have hk := iterCaptured_miss k worldA rfl rfl
  have hv := verify_on_orderA cfg sig _ hsig hk.1
  have hm := iterCaptured_hit m _ 0 hv.1
  refine ⟨by rw [hm.1]; ring_nf, ?_, rfl, rfl⟩
  rw [hm.2, hv.2, hk.2]
  simp [Nat.add_comm]

theorem captured_webhook_not_idempotent_witness :
    razorpayVerifyPayment toyCfg "order_1" "pay_1" "ks#order_1|pay_1" = true ∧
    ((iterCaptured "pay_1" 2
        ((verifyPayment toyCfg "order_1" "pay_1" "ks#order_1|pay_1"
          (iterCaptured "pay_1" 1 worldA)).world)).paymentSuccessEmails.length
      = 1 + 2) :=
  ⟨by decide,
    (captured_webhook_not_idempotent toyCfg "ks#order_1|pay_1" 1 2 (by decide)).2.1⟩

/-- C1 (counterexample): with one `ClientVerified` followed by two
`payment.captured` webhooks for the same payment id, three payment-success
notifications are sent, not the exactly-one the claim states, and the later
webhooks are not side-effect-free no-ops. -/
theorem captured_webhook_three_notifications :
    ((iterCaptured "pay_1" 2
        ((verifyPayment toyCfg "order_1" "pay_1" "ks#order_1|pay_1" worldA).world)).paymentSuccessEmails.length
      = 3) ∧ (3 ≠ 1) := by
  have hsig : razorpayVerifyPayment toyCfg "order_1" "pay_1" "ks#order_1|pay_1" = true := by
    decide
  have hv := verify_on_orderA toyCfg "ks#order_1|pay_1" worldA hsig rfl
  have hm := iterCaptured_hit 2 _ 0 hv.1
  refine ⟨?_, by decide⟩
  rw [hm.2, hv.2]
  simp [worldA]

/-! ### C2: the webhook HMAC input is a re-serialization, not the raw body -/

/-- C2 (code bug): `index.js` installs `express.json()` ahead of the webhook
route, so the controller's `JSON.stringify(req.body)` (line 14) feeds the
HMAC a re-serialization of the parsed body, not the delivered bytes: for the
delivered body `⟨"event": "payment.captured"⟩` the HMAC input drops the
space, and replacing that space by a tab — a one-byte tampering of the
delivered body — leaves the signature check's outcome unchanged for every
keyed hash function and every signature, contradicting the claim that any
one-byte tamper invalidates a previously-valid signature. -/
theorem webhook_hmac_input_reserialized :
    (webhookHmacInput rawSpace = some "\x7b\"event\":\"payment.captured\"\x7d") ∧
    webhookHmacInput rawSpace ≠ some rawSpace ∧
    rawTab ≠ rawSpace ∧ rawTab.length = rawSpace.length ∧
    (∀ cfg sig, webhookSignatureCheck cfg rawTab sig = webhookSignatureCheck cfg rawSpace sig) := by
  have hparse : webhookHmacInput rawTab = webhookHmacInput rawSpace := by decide
  refine ⟨by decide, by decide, by decide, by decide, ?_⟩
  intro cfg sig
  unfold webhookSignatureCheck
  rw [hparse]

/-! ### C8: the monetary invariant -/

theorem monetaryInv_of_same_money (o o' : Order)
    (h1 : o'.totalAmount = o.totalAmount) (h2 : o'.subtotal = o.subtotal)
    (h3 : o'.shippingCharges = o.shippingCharges) (h4 : o'.taxAmount = o.taxAmount)
    (h5 : o'.discountAmount = o.discountAmount) (h : MonetaryInv o) : MonetaryInv o' := by
  unfold MonetaryInv at *
  rw [h1, h2, h3, h4, h5]
  exact h

theorem monetaryInv_preSave_all (b2 b3 b4 b5 : Bool) (o : Order) :
    MonetaryInv (preSave true b2 b3 b4 b5 o) := by
  simp [preSave, MonetaryInv]

theorem monetaryInv_handlePaymentCaptured (p : PaymentEntity) (w : World)
    (h : ∀ o ∈ w.orders, MonetaryInv o) :
    ∀ o ∈ (handlePaymentCaptured p w).orders, MonetaryInv o := by
  unfold handlePaymentCaptured
  rcases hfind : w.orders.find? (fun o => o.razorpayPaymentId == some p.id) with _ | o₀
  · simpa [hfind] using h
  · simp only [hfind]
    exact updateFirst_forall _ _ _ h
      (monetaryInv_of_same_money o₀ _ rfl rfl rfl rfl rfl
        (h o₀ (List.mem_of_find?_eq_some hfind)))

theorem monetaryInv_handlePaymentFailed (p : PaymentEntity) (w : World)
    (h : ∀ o ∈ w.orders, MonetaryInv o) :
    ∀ o ∈ (handlePaymentFailed p w).orders, MonetaryInv o := by
  unfold handlePaymentFailed
  rcases hfind : w.orders.find? (fun o => o.razorpayPaymentId == some p.id) with _ | o₀
  · simpa [hfind] using h
  · simp only [hfind]
    exact updateFirst_forall _ _ _ h
      (monetaryInv_of_same_money o₀ _ rfl rfl rfl rfl rfl
        (h o₀ (List.mem_of_find?_eq_some hfind)))

theorem monetaryInv_handleOrderPaid (oe : OrderEntity) (w : World)
    (h : ∀ o ∈ w.orders, MonetaryInv o) :
    ∀ o ∈ (handleOrderPaid oe w).orders, MonetaryInv o := by
  unfold handleOrderPaid
  rcases hfind : w.orders.find? (fun o => o.razorpayOrderId == oe.id) with _ | o₀
  · simpa [hfind] using h
  · simp only [hfind]
    exact updateFirst_forall _ _ _ h
      (monetaryInv_of_same_money o₀ _ rfl rfl rfl rfl rfl
        (h o₀ (List.mem_of_find?_eq_some hfind)))

theorem monetaryInv_handleRefundCreated (re : RefundEntity) (w : World)
    (h : ∀ o ∈ w.orders, MonetaryInv o) :
    ∀ o ∈ (handleRefundCreated re w).orders, MonetaryInv o := by
  unfold handleRefundCreated
  rcases hfind : w.orders.find? (fun o => o.razorpayPaymentId == some re.payment_id) with _ | o₀
  · simpa [hfind] using h
  · simp only [hfind]
    exact updateFirst_forall _ _ _ h
      (monetaryInv_of_same_money o₀ _ rfl rfl rfl rfl rfl
        (h o₀ (List.mem_of_find?_eq_some hfind)))

theorem monetaryInv_handleRefundProcessed (re : RefundEntity) (w : World)
    (h : ∀ o ∈ w.orders, MonetaryInv o) :
    ∀ o ∈ (handleRefundProcessed re w).orders, MonetaryInv o := by
  unfold handleRefundProcessed
  rcases hfind : w.orders.find? (fun o => o.razorpayPaymentId == some re.payment_id) with _ | o₀
  · simpa [hfind] using h
  · simp only [hfind]
    exact updateFirst_forall _ _ _ h
      (monetaryInv_of_same_money o₀ _ rfl rfl rfl rfl rfl
        (h o₀ (List.mem_of_find?_eq_some hfind)))

/-- C8: every transition of the system — order placement, payment
verification, all webhook handlers, admin status update, admin refund —
preserves `totalAmount = subtotal + shippingCharges + taxAmount -
discountAmount` on every stored order: the pre-save hook recomputes the
total whenever a contributing field is modified (in particular at creation,
overriding the caller-supplied figures), and no other transition touches a
monetary field. -/
theorem monetary_invariant_preserved (cfg : Config) (ev : Event) (w : World)
    (h : ∀ o ∈ w.orders, MonetaryInv o) :
    ∀ o ∈ (step cfg ev w).orders, MonetaryInv o := by
  cases ev with
  | orderPlaced i r a it e =>
    show ∀ o ∈ ((createOrder i r a it e w).1).world.orders, MonetaryInv o
    intro o ho
    simp only [createOrder] at ho
    rcases List.mem_append.mp ho with hmem | hnew
    · exact h o hmem
    · rw [List.mem_singleton.mp hnew]
      exact monetaryInv_preSave_all _ _ _ _ _
  | clientVerified oid pid sig =>
    show ∀ o ∈ (verifyPayment cfg oid pid sig w).world.orders, MonetaryInv o
    unfold verifyPayment
    by_cases hv : razorpayVerifyPayment cfg oid pid sig
    · simp only [hv, not_true_eq_false, if_false]
      rcases hfind : w.orders.find? (fun o => o.razorpayOrderId == oid) with _ | o₀
      · simpa [hfind] using h
      · simp only [hfind]
        exact updateFirst_forall _ _ _ h
          (monetaryInv_of_same_money o₀ _ rfl rfl rfl rfl rfl
            (h o₀ (List.mem_of_find?_eq_some hfind)))
    · simp only [hv, not_false_eq_true, if_true]
      exact h
  | webhook auth e p =>
    show ∀ o ∈ (handleRazorpayWebhook auth e p w).world.orders, MonetaryInv o
    unfold handleRazorpayWebhook
    by_cases hauth : auth
    · simp only [hauth, not_true_eq_false, if_false]
      by_cases h1 : e == "payment.captured"
      · simpa [h1] using monetaryInv_handlePaymentCaptured p.payment w h
      · by_cases h2 : e == "payment.failed"
        · simpa [h1, h2] using monetaryInv_handlePaymentFailed p.payment w h
        · by_cases h3 : e == "order.paid"
          · simpa [h1, h2, h3] using monetaryInv_handleOrderPaid p.order w h
          · by_cases h4 : e == "refund.created"
            · simpa [h1, h2, h3, h4] using monetaryInv_handleRefundCreated p.refund w h
            · by_cases h5 : e == "refund.processed"
              · simpa [h1, h2, h3, h4, h5] using monetaryInv_handleRefundProcessed p.refund w h
              · simpa [h1, h2, h3, h4, h5] using h
    · simp only [hauth, not_false_eq_true, if_true]
      exact h
  | adminStatusUpdate oid status notes tracking carrier =>
    show ∀ o ∈ (updateOrderStatus oid status notes tracking carrier w).world.orders, MonetaryInv o
    unfold updateOrderStatus
    by_cases hval : validateOrderStatusUpdate status tracking
    · simp only [hval, not_true_eq_false, if_false]
      rcases hfind : w.orders.find? (fun o => o.internalId == oid) with _ | o₀
      · simpa [hfind] using h
      · simp only [hfind]
        split
        all_goals
          exact updateFirst_forall _ _ _ h
            (monetaryInv_of_same_money o₀ _ (by cases notes <;> rfl) (by cases notes <;> rfl)
              (by cases notes <;> rfl) (by cases notes <;> rfl) (by cases notes <;> rfl)
              (h o₀ (List.mem_of_find?_eq_some hfind)))
    · simp only [hval, not_false_eq_true, if_true]
      exact h
  | adminRefund pid amount reason =>
    show ∀ o ∈ (refundPayment pid amount reason w).world.orders, MonetaryInv o
    unfold refundPayment
    rcases hfind : w.orders.find? (fun o => o.razorpayPaymentId == some pid) with _ | o₀
    · simpa [hfind] using h
    · simp only [hfind]
      by_cases hs : o₀.paymentStatus ≠ PaymentStatus.success
      · simpa [hs] using h
      · simp only [hs, if_false]
        exact updateFirst_forall _ _ _ h
          (monetaryInv_of_same_money o₀ _ rfl rfl rfl rfl rfl
            (h o₀ (List.mem_of_find?_eq_some hfind)))

theorem monetary_invariant_preserved_witness :
    (∀ o ∈ worldA.orders, MonetaryInv o) ∧
    (∀ o ∈ (step toyCfg (.clientVerified "order_1" "pay_1" "ks#order_1|pay_1") worldA).orders,
      MonetaryInv o) := by
  have hw : ∀ o ∈ worldA.orders, MonetaryInv o := by
    intro o ho
    have heq : o = orderA := by simpa [worldA] using ho
    rw [heq]
    unfold MonetaryInv orderA
    norm_num
  exact ⟨hw, monetary_invariant_preserved toyCfg _ worldA hw⟩

/-! ### C3: the six-pair status invariant -/

theorem validPair_of_same_status (o o' : Order)
    (h1 : o'.paymentStatus = o.paymentStatus) (h2 : o'.status = o.status)
    (h : validPair o = true) : validPair o' = true := by
  unfold validPair at *
  rw [h1, h2]
  exact h

theorem validPair_handlePaymentCaptured (p : PaymentEntity) (w : World)
    (h : ∀ o ∈ w.orders, validPair o = true) :
    ∀ o ∈ (handlePaymentCaptured p w).orders, validPair o = true := by
  unfold handlePaymentCaptured
  rcases hfind : w.orders.find? (fun o => o.razorpayPaymentId == some p.id) with _ | o₀
  · simpa [hfind] using h
  · simp only [hfind]
    exact updateFirst_forall _ _ _ h rfl

theorem validPair_handlePaymentFailed (p : PaymentEntity) (w : World)
    (h : ∀ o ∈ w.orders, validPair o = true) :
    ∀ o ∈ (handlePaymentFailed p w).orders, validPair o = true := by
  unfold handlePaymentFailed
  rcases hfind : w.orders.find? (fun o => o.razorpayPaymentId == some p.id) with _ | o₀
  · simpa [hfind] using h
  · simp only [hfind]
    exact updateFirst_forall _ _ _ h rfl

theorem validPair_handleOrderPaid (oe : OrderEntity) (w : World)
    (h : ∀ o ∈ w.orders, validPair o = true) :
    ∀ o ∈ (handleOrderPaid oe w).orders, validPair o = true := by
  unfold handleOrderPaid
  rcases hfind : w.orders.find? (fun o => o.razorpayOrderId == oe.id) with _ | o₀
  · simpa [hfind] using h
  · simp only [hfind]
    exact updateFirst_forall _ _ _ h rfl

theorem validPair_handleRefundCreated (re : RefundEntity) (w : World)
    (h : ∀ o ∈ w.orders, validPair o = true) :
    ∀ o ∈ (handleRefundCreated re w).orders, validPair o = true := by
  unfold handleRefundCreated
  rcases hfind : w.orders.find? (fun o => o.razorpayPaymentId == some re.payment_id) with _ | o₀
  · simpa [hfind] using h
  · simp only [hfind]
    exact updateFirst_forall _ _ _ h rfl

theorem validPair_handleRefundProcessed (re : RefundEntity) (w : World)
    (h : ∀ o ∈ w.orders, validPair o = true) :
    ∀ o ∈ (handleRefundProcessed re w).orders, validPair o = true := by
  unfold handleRefundProcessed
  rcases hfind : w.orders.find? (fun o => o.razorpayPaymentId == some re.payment_id) with _ | o₀
  · simpa [hfind] using h
  · simp only [hfind]
    exact updateFirst_forall _ _ _ h
      (validPair_of_same_status o₀ _ rfl rfl (h o₀ (List.mem_of_find?_eq_some hfind)))

/-- C3 (amended): every transition other than the admin status update keeps
each order's (paymentStatus, status) pair inside the six allowed
combinations; the admin status update, however, sets only the fulfillment
status and never touches paymentStatus, so it can leave pairs outside the
set (see the counterexample), and the claim as stated is false. -/
theorem valid_pairs_preserved_except_admin_update (cfg : Config) (ev : Event) (w : World)
    (hev : ev.isAdminStatusUpdate = false)
    (h : ∀ o ∈ w.orders, validPair o = true) :
    ∀ o ∈ (step cfg ev w).orders, validPair o = true := by
  cases ev with
  | adminStatusUpdate oid status notes tracking carrier =>
    simp [Event.isAdminStatusUpdate] at hev
  | orderPlaced i r a it e =>
    show ∀ o ∈ ((createOrder i r a it e w).1).world.orders, validPair o = true
    intro o ho
    simp only [createOrder] at ho
    rcases List.mem_append.mp ho with hmem | hnew
    · exact h o hmem
    · rw [List.mem_singleton.mp hnew]; rfl
  | clientVerified oid pid sig =>
    show ∀ o ∈ (verifyPayment cfg oid pid sig w).world.orders, validPair o = true
    unfold verifyPayment
    by_cases hv : razorpayVerifyPayment cfg oid pid sig
    · simp only [hv, not_true_eq_false, if_false]
      rcases hfind : w.orders.find? (fun o => o.razorpayOrderId == oid) with _ | o₀
      · simpa [hfind] using h
      · simp only [hfind]
        exact updateFirst_forall _ _ _ h rfl
    · simp only [hv, not_false_eq_true, if_true]
      exact h
  | webhook auth e p =>
    show ∀ o ∈ (handleRazorpayWebhook auth e p w).world.orders, validPair o = true
    unfold handleRazorpayWebhook
    by_cases hauth : auth
    · simp only [hauth, not_true_eq_false, if_false]
      by_cases h1 : e == "payment.captured"
      · simpa [h1] using validPair_handlePaymentCaptured p.payment w h
      · by_cases h2 : e == "payment.failed"
        · simpa [h1, h2] using validPair_handlePaymentFailed p.payment w h
        · by_cases h3 : e == "order.paid"
          · simpa [h1, h2, h3] using validPair_handleOrderPaid p.order w h
          · by_cases h4 : e == "refund.created"
            · simpa [h1, h2, h3, h4] using validPair_handleRefundCreated p.refund w h
            · by_cases h5 : e == "refund.processed"
              · simpa [h1, h2, h3, h4, h5] using validPair_handleRefundProcessed p.refund w h
              · simpa [h1, h2, h3, h4, h5] using h
    · simp only [hauth, not_false_eq_true, if_true]
      exact h
  | adminRefund pid amount reason =>
    show ∀ o ∈ (refundPayment pid amount reason w).world.orders, validPair o = true
    unfold refundPayment
    rcases hfind : w.orders.find? (fun o => o.razorpayPaymentId == some pid) with _ | o₀
    · simpa [hfind] using h
    · simp only [hfind]
      by_cases hs : o₀.paymentStatus ≠ PaymentStatus.success
      · simpa [hs] using h
      · simp only [hs, if_false]
        exact updateFirst_forall _ _ _ h rfl

theorem valid_pairs_preserved_witness :
    (Event.isAdminStatusUpdate
      (.webhook true "payment.captured" (capturedPayloadFor "pay_1")) = false) ∧
    (∀ o ∈ worldA.orders, validPair o = true) ∧
    (∀ o ∈ (step toyCfg (.webhook true "payment.captured" (capturedPayloadFor "pay_1")) worldA).orders,
      validPair o = true) := by
  have hw : ∀ o ∈ worldA.orders, validPair o = true := by
    intro o ho
    have heq : o = orderA := by simpa [worldA] using ho
    rw [heq]; rfl
  exact ⟨rfl, hw, valid_pairs_preserved_except_admin_update toyCfg _ worldA rfl hw⟩

/-- C3 (counterexample): an admin status update to `confirmed` on an order
still in (pending, pending) completes with HTTP 200 and leaves the pair
(pending, confirmed), which is outside the six allowed combinations. -/
theorem admin_update_reaches_invalid_pair :
    validPair orderA = true ∧
    ((updateOrderStatus "id1" .confirmed none none none worldA).status = 200) ∧
    ((updateOrderStatus "id1" .confirmed none none none worldA).world.orders.map
      (fun o => (o.paymentStatus, o.status))) = [(.pending, .confirmed)] ∧
    ((updateOrderStatus "id1" .confirmed none none none worldA).world.orders.map validPair)
      = [false] := by
  refine ⟨rfl, ?_, ?_, ?_⟩ <;>
    simp [updateOrderStatus, validateOrderStatusUpdate, worldA, orderA, updateFirst,
      preSave, validPair]

/-! ### C5: admin refund amount handling -/

/-- C5 (amended): when the amount is unspecified the admin refund defaults
to the order's full `totalAmount`, as claimed — but there is no local bound
check: any nonzero requested amount, including amounts exceeding
`totalAmount`, is forwarded to the gateway refund call unchecked (see the
counterexample), so the rejected-before-the-gateway half of the claim is
false. -/
theorem refund_defaults_but_no_bound_check (pid : String) (reason : Option String)
    (w : World) (o : Order)
    (hfind : w.orders.find? (fun x => x.razorpayPaymentId == some pid) = some o)
    (hs : o.paymentStatus = .success) :
    ((refundPayment pid none reason w).status = 200) ∧
    ((refundPayment pid none reason w).world.gatewayCalls
      = w.gatewayCalls ++ [.refund pid (round (o.totalAmount * 100))]) ∧
    (∀ a : ℚ, a ≠ 0 →
      (refundPayment pid (some a) reason w).world.gatewayCalls
        = w.gatewayCalls ++ [.refund pid (round (a * 100))]) := by
  have hs' : ¬ (o.paymentStatus ≠ PaymentStatus.success) := by simp [hs]
  refine ⟨?_, ?_, ?_⟩
  · unfold refundPayment
    simp [hfind, hs']
  · unfold refundPayment
    simp [hfind, hs', razorpayCreateRefundAmount]
  · intro a ha
    unfold refundPayment
    simp [hfind, hs', ha, razorpayCreateRefundAmount]

theorem refund_defaults_but_no_bound_check_witness :
    (worldS.orders.find? (fun x => x.razorpayPaymentId == some "pay_1") = some orderS) ∧
    (orderS.paymentStatus = .success) ∧
    ((refundPayment "pay_1" (some 2000) none worldS).world.gatewayCalls
      = worldS.gatewayCalls ++ [.refund "pay_1" (round ((2000 : ℚ) * 100))]) := by
  have hfind : worldS.orders.find? (fun x => x.razorpayPaymentId == some "pay_1")
      = some orderS := by
    simp [worldS, orderS]
  exact ⟨hfind, rfl,
    (refund_defaults_but_no_bound_check "pay_1" none worldS orderS hfind rfl).2.2 2000
      (by norm_num)⟩

/-- C5 (counterexample): a refund request for ₹2000 against an order whose
total is ₹1161 is not rejected: the gateway refund call is made with the
requested 2000 (transmitted as 200000) and the order is moved to
(refunded, cancelled) with HTTP 200. -/
theorem refund_excess_amount_not_rejected :
    ((2000 : ℚ) > orderS.totalAmount) ∧
    ((refundPayment "pay_1" (some 2000) none worldS).status = 200) ∧
    ((refundPayment "pay_1" (some 2000) none worldS).world.gatewayCalls
      = [.refund "pay_1" 200000]) ∧
    ((refundPayment "pay_1" (some 2000) none worldS).world.orders.map
      (fun o => (o.paymentStatus, o.status)) = [(.refunded, .cancelled)]) := by
  have h200 : razorpayCreateRefundAmount (2000 : ℚ) = 200000 := by
    unfold razorpayCreateRefundAmount
    exact round_ratCast _ _ (by norm_num)
  refine ⟨by simp [orderS, orderA]; norm_num, ?_, ?_, ?_⟩ <;>
    simp [refundPayment, worldS, orderS, orderA, updateFirst, preSave, h200]

/-! ### C6: payment verification and the pending precondition -/

/-- C6 (amended): a request failing signature verification is rejected with
400 and no order is touched, as claimed — but the pending precondition is
not checked: whenever the signature is valid and an order matches the order
id, `verifyPayment` sets the payment id and moves the order to
(success, confirmed) regardless of its current payment status (see the
counterexample applying it to an already-refunded order). -/
theorem verify_ignores_pending_precondition (cfg : Config) (oid pid sig : String) (w : World) :
    (razorpayVerifyPayment cfg oid pid sig = false →
      verifyPayment cfg oid pid sig w = { world := w, status := 400 }) ∧
    (∀ o, razorpayVerifyPayment cfg oid pid sig = true →
      w.orders.find? (fun x => x.razorpayOrderId == oid) = some o →
      ((verifyPayment cfg oid pid sig w).status = 200 ∧
       (verifyPayment cfg oid pid sig w).world.orders.find? (fun x => x.razorpayOrderId == oid)
         = some { o with razorpayPaymentId := some pid,
                         paymentStatus := .success, status := .confirmed } ∧
       (verifyPayment cfg oid pid sig w).world.paymentSuccessEmails
         = w.paymentSuccessEmails ++ [o.customerEmail])) := by
  constructor
  · intro hv
    unfold verifyPayment
    simp [hv]
  · intro o hv hfind
    unfold verifyPayment
    simp only [hv, not_true_eq_false, if_false, hfind]
    have hpo := List.find?_some hfind
    refine ⟨trivial, ?_, trivial⟩
    rw [preSave_id]
    exact find?_updateFirst_self _ _ _ ⟨o, List.mem_of_find?_eq_some hfind, hpo⟩ hpo

theorem verify_ignores_pending_precondition_witness :
    (razorpayVerifyPayment toyCfg "order_1" "pay_1" "ks#order_1|pay_1" = true) ∧
    (worldR.orders.find? (fun x => x.razorpayOrderId == "order_1") = some orderR) ∧
    ((verifyPayment toyCfg "order_1" "pay_1" "ks#order_1|pay_1" worldR).status = 200 ∧
     (verifyPayment toyCfg "order_1" "pay_1" "ks#order_1|pay_1" worldR).world.orders.find?
        (fun x => x.razorpayOrderId == "order_1")
       = some { orderR with razorpayPaymentId := some "pay_1",
                            paymentStatus := .success, status := .confirmed } ∧
     (verifyPayment toyCfg "order_1" "pay_1" "ks#order_1|pay_1" worldR).world.paymentSuccessEmails
       = worldR.paymentSuccessEmails ++ [orderR.customerEmail]) := by
  have hfind : worldR.orders.find? (fun x => x.razorpayOrderId == "order_1") = some orderR := by
    simp [worldR, orderR, orderA]
  exact ⟨by decide, hfind,
    (verify_ignores_pending_precondition toyCfg "order_1" "pay_1" "ks#order_1|pay_1" worldR).2
      orderR (by decide) hfind⟩

/-- C6 (counterexample): with a valid signature, `verifyPayment` moves an
order that is already (refunded, cancelled) — not (pending, pending) — to
(success, confirmed) and answers 200: the pending precondition of the claim
is not enforced. -/
theorem verify_transitions_refunded_order :
    orderR.paymentStatus = .refunded ∧ orderR.status = .cancelled ∧
    ((verifyPayment toyCfg "order_1" "pay_1" "ks#order_1|pay_1" worldR).status = 200) ∧
    ((verifyPayment toyCfg "order_1" "pay_1" "ks#order_1|pay_1" worldR).world.orders.map
      (fun o => (o.paymentStatus, o.status)) = [(.success, .confirmed)]) := by
  refine ⟨rfl, rfl, ?_, ?_⟩ <;>
    simp [verifyPayment, razorpayVerifyPayment, toyCfg, worldR, orderR, orderA,
      updateFirst, preSave]

/-! ### C7: webhook lookup miss and unknown events -/

theorem handlePaymentCaptured_miss (p : PaymentEntity) (w : World)
    (h : w.orders.find? (fun o => o.razorpayPaymentId == some p.id) = none) :
    handlePaymentCaptured p w
      = { w with logs := w.logs ++ ["Order not found for payment ID: " ++ p.id] } := by
  unfold handlePaymentCaptured
  simp [h]

theorem handlePaymentFailed_miss (p : PaymentEntity) (w : World)
    (h : w.orders.find? (fun o => o.razorpayPaymentId == some p.id) = none) :
    handlePaymentFailed p w
      = { w with logs := w.logs ++ ["Order not found for payment ID: " ++ p.id] } := by
  unfold handlePaymentFailed
  simp [h]

theorem handleOrderPaid_miss (oe : OrderEntity) (w : World)
    (h : w.orders.find? (fun o => o.razorpayOrderId == oe.id) = none) :
    handleOrderPaid oe w
      = { w with logs := w.logs ++ ["Order not found in database: " ++ oe.id] } := by
  unfold handleOrderPaid
  simp [h]

theorem handleRefundCreated_miss (re : RefundEntity) (w : World)
    (h : w.orders.find? (fun o => o.razorpayPaymentId == some re.payment_id) = none) :
    handleRefundCreated re w
      = { w with logs := w.logs ++ ["Order not found for payment ID: " ++ re.payment_id] } := by
  unfold handleRefundCreated
  simp [h]

theorem handleRefundProcessed_miss (re : RefundEntity) (w : World)
    (h : w.orders.find? (fun o => o.razorpayPaymentId == some re.payment_id) = none) :
    handleRefundProcessed re w
      = { w with logs := w.logs ++ ["Order not found for payment ID: " ++ re.payment_id] } := by
  unfold handleRefundProcessed
  simp [h]

/-- C7: a signature-valid webhook whose payment/order identifier matches no
stored order is answered with HTTP 200, mutates no order, and appends an
anomaly log entry; an unrecognized event type is likewise answered 200 with
no order mutated and only a log entry appended. -/
theorem webhook_miss_and_unknown_are_nonfatal :
    (∀ (w : World) (payload : WebhookPayload) (ev : String), ev ∈ handledEvents →
      (∀ o ∈ w.orders, o.razorpayPaymentId ≠ some payload.payment.id) →
      (∀ o ∈ w.orders, o.razorpayPaymentId ≠ some payload.refund.payment_id) →
      (∀ o ∈ w.orders, o.razorpayOrderId ≠ payload.order.id) →
      ((handleRazorpayWebhook true ev payload w).status = 200 ∧
       (handleRazorpayWebhook true ev payload w).world.orders = w.orders ∧
       ∃ msg, (handleRazorpayWebhook true ev payload w).world.logs = w.logs ++ [msg])) ∧
    (∀ (w : World) (payload : WebhookPayload) (ev : String), ev ∉ handledEvents →
      ((handleRazorpayWebhook true ev payload w).status = 200 ∧
       (handleRazorpayWebhook true ev payload w).world.orders = w.orders ∧
       ∃ msg, (handleRazorpayWebhook true ev payload w).world.logs = w.logs ++ [msg])) := by
  constructor
  · intro w payload ev hev hp hr ho
    have hfp : w.orders.find? (fun o => o.razorpayPaymentId == some payload.payment.id)
        = none := by
      rw [List.find?_eq_none]
      intro x hx
      simpa using hp x hx
    have hfr : w.orders.find? (fun o => o.razorpayPaymentId == some payload.refund.payment_id)
        = none := by
      rw [List.find?_eq_none]
      intro x hx
      simpa using hr x hx
    have hfo : w.orders.find? (fun o => o.razorpayOrderId == payload.order.id) = none := by
      rw [List.find?_eq_none]
      intro x hx
      simpa using ho x hx
    simp only [handledEvents, List.mem_cons, List.not_mem_nil, or_false] at hev
    rcases hev with rfl | rfl | rfl | rfl | rfl
    · rw [show handleRazorpayWebhook true "payment.captured" payload w
          = { world := handlePaymentCaptured payload.payment w, status := 200 } from rfl,
        handlePaymentCaptured_miss payload.payment w hfp]
      exact ⟨rfl, rfl, _, rfl⟩
    · rw [show handleRazorpayWebhook true "payment.failed" payload w
          = { world := handlePaymentFailed payload.payment w, status := 200 } from rfl,
        handlePaymentFailed_miss payload.payment w hfp]
      exact ⟨rfl, rfl, _, rfl⟩
    · rw [show handleRazorpayWebhook true "order.paid" payload w
          = { world := handleOrderPaid payload.order w, status := 200 } from rfl,
        handleOrderPaid_miss payload.order w hfo]
      exact ⟨rfl, rfl, _, rfl⟩
    · rw [show handleRazorpayWebhook true "refund.created" payload w
          = { world := handleRefundCreated payload.refund w, status := 200 } from rfl,
        handleRefundCreated_miss payload.refund w hfr]
      exact ⟨rfl, rfl, _, rfl⟩
    · rw [show handleRazorpayWebhook true "refund.processed" payload w
          = { world := handleRefundProcessed payload.refund w, status := 200 } from rfl,
        handleRefundProcessed_miss payload.refund w hfr]
      exact ⟨rfl, rfl, _, rfl⟩
  · intro w payload ev hev
    simp only [handledEvents, List.mem_cons, List.not_mem_nil, or_false, not_or] at hev
    obtain ⟨h1, h2, h3, h4, h5⟩ := hev
    unfold handleRazorpayWebhook
    rw [if_neg (by simp),
      if_neg (show ¬ (ev == "payment.captured") = true by simpa using h1),
      if_neg (show ¬ (ev == "payment.failed") = true by simpa using h2),
      if_neg (show ¬ (ev == "order.paid") = true by simpa using h3),
      if_neg (show ¬ (ev == "refund.created") = true by simpa using h4),
      if_neg (show ¬ (ev == "refund.processed") = true by simpa using h5)]
    exact ⟨rfl, rfl, _, rfl⟩

theorem webhook_miss_and_unknown_are_nonfatal_witness :
    (("refund.created" : String) ∈ handledEvents) ∧
    (("refund.failed" : String) ∉ handledEvents) ∧
    ((handleRazorpayWebhook true "refund.created"
        { refund := { id := "rf_1", payment_id := "pay_absent" } } worldA).status = 200 ∧
     (handleRazorpayWebhook true "refund.created"
        { refund := { id := "rf_1", payment_id := "pay_absent" } } worldA).world.orders
       = worldA.orders ∧
     ∃ msg, (handleRazorpayWebhook true "refund.created"
        { refund := { id := "rf_1", payment_id := "pay_absent" } } worldA).world.logs
       = worldA.logs ++ [msg]) ∧
    ((handleRazorpayWebhook true "refund.failed"
        { refund := { id := "rf_1", payment_id := "pay_absent" } } worldA).status = 200 ∧
     (handleRazorpayWebhook true "refund.failed"
        { refund := { id := "rf_1", payment_id := "pay_absent" } } worldA).world.orders
       = worldA.orders ∧
     ∃ msg, (handleRazorpayWebhook true "refund.failed"
        { refund := { id := "rf_1", payment_id := "pay_absent" } } worldA).world.logs
       = worldA.logs ++ [msg]) := by
  refine ⟨by decide, by decide, ?_, ?_⟩
  · refine (webhook_miss_and_unknown_are_nonfatal.1 worldA
      { refund := { id := "rf_1", payment_id := "pay_absent" } } "refund.created"
      (by decide) ?_ ?_ ?_) <;>
      (intro o ho;
       have heq : o = orderA := by simpa [worldA] using ho;
       rw [heq]; simp [orderA])
  · exact webhook_miss_and_unknown_are_nonfatal.2 worldA
      { refund := { id := "rf_1", payment_id := "pay_absent" } } "refund.failed" (by decide)

end CottonNest
